import Mathlib

/-!
Verification of the background chat responder of this repository
(`active_ai_monitor.py`): trigger detection over the transcript,
the tool-orchestration agent loop, tool dispatch, and the recency-weight
formula of the context builder.

The transcript (`chat_history.txt`) is an append-only sequence of
single-line JSON records `{"sender": ..., "message": ...}`; we model it as
a `List ChatRecord` of the parsed records, oldest first.  The persisted
`.last_processed_line` offset is modelled as a `Nat` threaded explicitly.
-/

/-- One parsed transcript line: `{"sender": string, "message": string}`. -/
structure ChatRecord where
  sender : String
  message : String
deriving DecidableEq, Repr

/-- `TRIGGER_WORD = "@ai"` from `active_ai_monitor.py`. -/
def TRIGGER_WORD : String := "@ai"

/-- The sender name the monitor uses for its own messages. -/
def RESPONDER_NAME : String := "AI Assistant"

/-- The character content of Python's `s.lower()` (equivalently Lean's
`String.toLower`): every character lowered individually. -/
def lowerChars (s : String) : List Char :=
  s.data.map Char.toLower

/-- Python's `TRIGGER_WORD.lower() in message.lower()`: case-insensitive
substring containment of the trigger token in the message. -/
def containsTrigger (message : String) : Bool :=
  decide (lowerChars TRIGGER_WORD <:+: lowerChars message)

/-- Result of one `check_for_trigger` evaluation: the returned pair
`(fired, current_line_count)` plus the value of the persisted
`.last_processed_line` store after the call (the Python function updates
that file as a side effect only when it fires). -/
structure CheckResult where
  fired : Bool
  count : Nat
  stored : Nat
deriving DecidableEq, Repr

/-- `check_for_trigger` from `active_ai_monitor.py` (lines 556-603): reads
the transcript, inspects only the newest record, skips the responder's own
messages, fires when the trigger token occurs case-insensitively in the
newest message and the line count exceeds the stored offset; the stored
offset is rewritten to the line count exactly when it fires. -/
def check_for_trigger (t : List ChatRecord) (lastProcessed : Nat) : CheckResult :=
  match t.getLast? with
  | none => ⟨false, t.length, lastProcessed⟩
  | some r =>
    if r.sender = RESPONDER_NAME then
      ⟨false, t.length, lastProcessed⟩
    else if containsTrigger r.message then
      if lastProcessed < t.length then
        ⟨true, t.length, t.length⟩
      else
        ⟨false, t.length, lastProcessed⟩
    else
      ⟨false, t.length, lastProcessed⟩

/-- `get_last_processed_line`: contents of the offset file (`none` when the
file does not exist), parsed as a natural number, defaulting to `0` on any
parse failure. -/
def get_last_processed_line (store : Option String) : Nat :=
  match store with
  | none => 0
  | some s => (s.trim.toNat?).getD 0

/-- Stored offset after `n` successive `check_for_trigger` calls on the
same transcript, starting from stored offset `off`. -/
def storedAfter (t : List ChatRecord) (off : Nat) : Nat → Nat
  | 0 => off
  | n + 1 => (check_for_trigger t (storedAfter t off n)).stored

/-- The `fired` flag of the `(n+1)`-th successive `check_for_trigger` call
on the same transcript (0-indexed: call `n` runs on the state left by the
first `n` calls). -/
def firedOnCall (t : List ChatRecord) (off : Nat) (n : Nat) : Bool :=
  (check_for_trigger t (storedAfter t off n)).fired

/-- A JSON object argument dictionary, abstracted to its key-value pairs. -/
structure ToolInput where
  fields : List (String × String)
deriving DecidableEq, Repr

/-- A Python exception value, abstracted to its message string. -/
structure PyError where
  msg : String
deriving DecidableEq, Repr

/-- The tool names `execute_tool`'s if/elif chain dispatches on, in source
order (= the names declared in `TOOLS`). -/
def REGISTERED_TOOLS : List String :=
  ["check_availability", "get_current_locations", "find_common_free_time",
   "find_restaurants", "find_restaurants_by_address", "analyze_food_preferences",
   "geocode_address", "analyze_message_sentiment", "get_user_food_preferences",
   "get_group_directions", "get_travel_time_summary", "list_group_members"]

/-- `execute_tool` from `active_ai_monitor.py` (lines 256-353).  The
capability providers (calendar/location/sentiment/directions servers) are
external collaborators, abstracted as `handlers`; a handler that raises is
an `Except.error`.  The Python body is wrapped in a catch-all `try`:
a raising handler becomes the string `Error executing <name>: <msg>`, an
unregistered name the sentinel `Unknown tool: <name>`, and no exception
ever escapes to the caller (hence the total `String` return type). -/
def execute_tool (handlers : String → ToolInput → Except PyError String)
    (tool_name : String) (tool_input : ToolInput) : String :=
  if tool_name ∈ REGISTERED_TOOLS then
    match handlers tool_name tool_input with
    | Except.ok r => r
    | Except.error e => "Error executing " ++ tool_name ++ ": " ++ e.msg
  else
    "Unknown tool: " ++ tool_name

/-- One content block of a model response: a text block or a tool-use
request `{id, name, input}`. -/
inductive ContentBlock where
  | text (s : String)
  | tool_use (id : String) (name : String) (input : ToolInput)
deriving DecidableEq, Repr

/-- A model response: its content blocks and its stop reason. -/
structure ModelResponse where
  content : List ContentBlock
  stop_reason : String
deriving DecidableEq, Repr

/-- A `{"type": "tool_result", "tool_use_id": ..., "content": ...}` entry. -/
structure ToolResult where
  tool_use_id : String
  content : String
deriving DecidableEq, Repr

/-- Roles of conversation messages sent to the model. -/
inductive Role where
  | user
  | assistant
deriving DecidableEq, Repr

/-- Content of one conversation message: the initial prompt string, an
assistant turn's content blocks, or a user turn carrying tool results. -/
inductive MsgContent where
  | prompt (s : String)
  | blocks (bs : List ContentBlock)
  | results (rs : List ToolResult)
deriving DecidableEq, Repr

/-- One entry of `conversation_messages`. -/
structure Message where
  role : Role
  content : MsgContent
deriving DecidableEq, Repr

/-- The id of a block when it is a tool-use block
(`block.type == "tool_use"`). -/
def toolUseId? : ContentBlock → Option String
  | ContentBlock.tool_use id _ _ => some id
  | ContentBlock.text _ => none

/-- Lines 497-508 of `generate_response`: filter the tool-use blocks out of
the response content and execute each in order, wrapping each result with
the requesting block's id. -/
def tool_results_for (handlers : String → ToolInput → Except PyError String)
    (blocks : List ContentBlock) : List ToolResult :=
  blocks.filterMap fun b =>
    match b with
    | ContentBlock.tool_use id name input =>
        some ⟨id, execute_tool handlers name input⟩
    | ContentBlock.text _ => none

/-- Lines 510-518 of `generate_response`: append the assistant turn and the
user turn carrying all tool results to the running conversation. -/
def nextConversation (handlers : String → ToolInput → Except PyError String)
    (conv : List Message) (resp : ModelResponse) : List Message :=
  conv ++ [⟨Role.assistant, MsgContent.blocks resp.content⟩,
           ⟨Role.user, MsgContent.results (tool_results_for handlers resp.content)⟩]

/-- Lines 529-531 of `generate_response`: join the text blocks of the final
response with spaces; a fixed fallback sentence when there are none. -/
def finalText (resp : ModelResponse) : String :=
  let ts := resp.content.filterMap fun b =>
    match b with
    | ContentBlock.text s => some s
    | ContentBlock.tool_use _ _ _ => none
  if ts.isEmpty then "I processed your request but couldn't generate a response."
  else String.intercalate " " ts

/-- Outcome of one `generate_response` run: `answer s` when the loop exits
with a final text, `failed` when an exception was caught (Python returns
`None`), `running` when the loop has not finished within the given number
of tool-use round-trips (the Python loop has no iteration cap, so `running`
for every bound models nontermination). -/
inductive GenOutcome where
  | running
  | failed
  | answer (s : String)
deriving DecidableEq, Repr

/-- The `while response.stop_reason == "tool_use"` loop of
`generate_response` (lines 467-531), indexed by the number of round-trips
still allowed.  `model` is the language-model service
(`client.messages.create` over the conversation so far); a raised
exception is `Except.error` and is caught by the surrounding `try`. -/
def agentLoop (model : List Message → Except PyError ModelResponse)
    (handlers : String → ToolInput → Except PyError String) :
    Nat → List Message → ModelResponse → GenOutcome
  | 0, _, _ => GenOutcome.running
  | fuel + 1, conv, resp =>
    if resp.stop_reason = "tool_use" then
      match model (nextConversation handlers conv resp) with
      | Except.ok resp' =>
          agentLoop model handlers fuel (nextConversation handlers conv resp) resp'
      | Except.error _ => GenOutcome.failed
    else
      GenOutcome.answer (finalText resp)

/-- `generate_response` (lines 413-537): initial model call on the prompt,
then the tool-use loop; any exception raised by a model call is caught and
turned into Python's `return None` (`GenOutcome.failed`). -/
def generate_response (model : List Message → Except PyError ModelResponse)
    (handlers : String → ToolInput → Except PyError String)
    (fuel : Nat) (prompt : String) : GenOutcome :=
  let conv0 : List Message := [⟨Role.user, MsgContent.prompt prompt⟩]
  match model conv0 with
  | Except.ok resp => agentLoop model handlers fuel conv0 resp
  | Except.error _ => GenOutcome.failed

/-- Lines 646-675 of `monitor_loop`: what is delivered to the chat after a
generation attempt.  A truthy answer is sent as "AI Assistant"; a `None`
result (caught exception) is only logged — nothing is sent; a timeout of
the still-running loop sends the fixed placeholder message. -/
def monitor_deliver : GenOutcome → Option (String × String)
  | GenOutcome.answer s =>
      if s = "" then none else some (RESPONDER_NAME, s)
  | GenOutcome.failed => none
  | GenOutcome.running =>
      some (RESPONDER_NAME, "Response timeout - still processing, please wait...")

/-- Modelled from the spec: the recency weight the ContextBuilder assigns
to position `i` in a window of `total` messages with spread `sigma` —
`p = 2·i/(total-1) − 1`, `weight = exp(−(p−1)² / (2·σ²))`, and weight `1`
when `total = 1`.  The weighted ContextBuilder belongs to a part of the
repository not among the provided sources (the provided
`build_context_prompt` renders the window without weights), so the formula
is taken from the spec, over the reals. -/
noncomputable def contextWeight (sigma : ℝ) (total i : Nat) : ℝ :=
  if total = 1 then 1
  else Real.exp (-((2 * (i : ℝ) / ((total : ℝ) - 1) - 1) - 1) ^ 2 / (2 * sigma ^ 2))

/-- Structure `ToolUse` mirrors the fields the loop reads off a tool-use
block (`tool_use.id`, `tool_use.name`, `tool_use.input`). -/
structure ToolUse where
  id : String
  name : String
  input : ToolInput
deriving DecidableEq, Repr

/-- The tool-use view of a content block, when it is one. -/
def toolUse? : ContentBlock → Option ToolUse
  | ContentBlock.tool_use id name input => some ⟨id, name, input⟩
  | ContentBlock.text _ => none

/-- Lines 500-508 of `generate_response`: execute each requested tool call
of a turn in order, one result per call, keyed by the call's id. -/
def run_tool_uses (handlers : String → ToolInput → Except PyError String)
    (tus : List ToolUse) : List ToolResult :=
  tus.map fun tu => ⟨tu.id, execute_tool handlers tu.name tu.input⟩

/-- Concrete always-succeeding handlers, for instantiations. -/
def wHandlersOk : String → ToolInput → Except PyError String :=
  fun _ _ => Except.ok "ok"

/-- Concrete handlers whose `check_availability` provider raises. -/
def wHandlersBoom : String → ToolInput → Except PyError String :=
  fun n _ => if n = "check_availability" then Except.error ⟨"boom"⟩ else Except.ok "ok"

/-- A concrete turn with two requested tool calls, the first of which will
fail under `wHandlersBoom`. -/
def wToolUses : List ToolUse :=
  [⟨"id0", "check_availability", ⟨[]⟩⟩, ⟨"id1", "list_group_members", ⟨[]⟩⟩]

/-- A concrete mocked model that answers every request with a tool-use
turn. -/
def wModelTU : List Message → Except PyError ModelResponse :=
  fun _ => Except.ok ⟨[ContentBlock.tool_use "t1" "geocode_address" ⟨[]⟩], "tool_use"⟩

/-- A concrete model that ends the conversation immediately. -/
def wModelEnd : List Message → Except PyError ModelResponse :=
  fun _ => Except.ok ⟨[ContentBlock.text "done"], "end_turn"⟩

/-- A concrete model whose every call raises. -/
def wModelErr : List Message → Except PyError ModelResponse :=
  fun _ => Except.error ⟨"boom"⟩

/-- A concrete tool-use response with two tool calls and an interleaved
text block. -/
def wRespTU : ModelResponse :=
  ⟨[ContentBlock.tool_use "a" "geocode_address" ⟨[]⟩, ContentBlock.text "t",
    ContentBlock.tool_use "b" "bogus" ⟨[]⟩], "tool_use"⟩

/-- The trigger word is already lowercase, so lowering is the identity on
it; case-insensitive containment of the token is containment of
`"@ai".data` in the lowered message. -/
theorem containsTrigger_of_substring (m : String)
    (h : "@ai".data <:+: lowerChars m) : containsTrigger m = true := by
  have hTW : lowerChars TRIGGER_WORD = "@ai".data := by decide
  unfold containsTrigger
  rw [hTW]
  exact decide_eq_true h

/-- When the stored offset already equals the transcript length, no branch
of `check_for_trigger` fires and no branch moves the stored offset. -/
theorem check_at_length (t : List ChatRecord) :
    check_for_trigger t t.length = ⟨false, t.length, t.length⟩ := by
  unfold check_for_trigger
  cases hg : t.getLast? with
  | none => rfl
  | some r =>
    by_cases hs : r.sender = RESPONDER_NAME
    · simp [hs]
    · by_cases hc : containsTrigger r.message
      · simp [hs, hc]
      · simp [hs, hc]

/-- A newest record from another sender that contains the trigger, with the
stored offset strictly below the line count, fires and rewrites the stored
offset to the line count. -/
theorem check_fires_of (t : List ChatRecord) (r : ChatRecord) (off : Nat)
    (hlast : t.getLast? = some r) (hs : r.sender ≠ RESPONDER_NAME)
    (hc : containsTrigger r.message = true) (hoff : off < t.length) :
    check_for_trigger t off = ⟨true, t.length, t.length⟩ := by
  unfold check_for_trigger
  rw [hlast]
  simp [hs, hc, hoff]

/-- C2: for a transcript whose newest record contains the trigger token and
is from a non-responder sender, with the stored offset below the transcript
length, the first `check_for_trigger` call fires and every subsequent call
on the same transcript does not: a given log position triggers a response
at most once. -/
theorem trigger_fires_at_most_once (t : List ChatRecord) (r : ChatRecord) (off : Nat)
    (hlast : t.getLast? = some r) (hs : r.sender ≠ RESPONDER_NAME)
    (hsub : "@ai".data <:+: lowerChars r.message) (hoff : off < t.length) :
    firedOnCall t off 0 = true ∧ ∀ n, 1 ≤ n → firedOnCall t off n = false := by
  have hc := containsTrigger_of_substring r.message hsub
  have hfire := check_fires_of t r off hlast hs hc hoff
  have hstored : ∀ k, storedAfter t off (k + 1) = t.length := by
    intro k
    induction k with
    | zero =>
      show (check_for_trigger t (storedAfter t off 0)).stored = t.length
      rw [show storedAfter t off 0 = off from rfl, hfire]
    | succ m ih =>
      show (check_for_trigger t (storedAfter t off (m + 1))).stored = t.length
      rw [ih, check_at_length]
  constructor
  · show (check_for_trigger t (storedAfter t off 0)).fired = true
    rw [show storedAfter t off 0 = off from rfl, hfire]
  · intro n hn
    obtain ⟨k, rfl⟩ : ∃ k, n = k + 1 := ⟨n - 1, by omega⟩
    show (check_for_trigger t (storedAfter t off (k + 1))).fired = false
    rw [hstored k, check_at_length]

theorem trigger_fires_at_most_once_witness :
    firedOnCall [⟨"Dana", "@ai where should we eat?"⟩] 0 0 = true ∧
    firedOnCall [⟨"Dana", "@ai where should we eat?"⟩] 0 5 = false := by
  have h := trigger_fires_at_most_once [⟨"Dana", "@ai where should we eat?"⟩]
    ⟨"Dana", "@ai where should we eat?"⟩ 0 (by decide) (by decide) (by decide) (by decide)
  exact ⟨h.1, h.2 5 (by decide)⟩

/-- C3: a transcript whose newest record is authored by the responder
itself never fires, for every stored offset, even when that record's
message contains the trigger token. -/
theorem self_messages_never_fire (t : List ChatRecord) (r : ChatRecord)
    (hlast : t.getLast? = some r) (hs : r.sender = RESPONDER_NAME) :
    ∀ off, (check_for_trigger t off).fired = false := by
  intro off
  unfold check_for_trigger
  rw [hlast]
  simp [hs]

theorem self_messages_never_fire_witness :
    (check_for_trigger [⟨"AI Assistant", "ping @ai now"⟩] 0).fired = false :=
  self_messages_never_fire [⟨"AI Assistant", "ping @ai now"⟩]
    ⟨"AI Assistant", "ping @ai now"⟩ (by decide) (by decide) 0

/-- C4 counterexample: on the one-record transcript `[{Dana, "hello"}]`
with stored offset `0`, `check_for_trigger` does not fire and leaves the
stored offset at `0`, not at the transcript length `1`: the stored
processed offset does not advance on every evaluation. -/
theorem stored_offset_not_always_advanced :
    ¬ ((check_for_trigger [⟨"Dana", "hello"⟩] 0).stored = 1) := by decide

/-- C4 (amended): on every evaluation the RETURNED line count equals the
transcript length, and the STORED offset advances to the transcript length
exactly when the call fires — otherwise it is left unchanged. -/
theorem check_count_and_stored (t : List ChatRecord) (off : Nat) :
    (check_for_trigger t off).count = t.length ∧
    ((check_for_trigger t off).fired = true →
      (check_for_trigger t off).stored = t.length) ∧
    ((check_for_trigger t off).fired = false →
      (check_for_trigger t off).stored = off) := by
  unfold check_for_trigger
  cases hg : t.getLast? with
  | none => simp
  | some r =>
    by_cases hs : r.sender = RESPONDER_NAME
    · simp [hs]
    · by_cases hc : containsTrigger r.message
      · by_cases ho : off < t.length
        · simp [hs, hc, ho]
        · simp [hs, hc, ho]
      · simp [hs, hc]

/-- C10: trigger matching is case-insensitive substring matching — the
detector fires (under the sender and offset side conditions) whenever the
token occurs in the lowered newest message, hence in any letter casing and
also inside a longer word. -/
theorem check_fires_case_insensitive (t : List ChatRecord) (r : ChatRecord) (off : Nat)
    (hlast : t.getLast? = some r) (hs : r.sender ≠ RESPONDER_NAME)
    (hsub : "@ai".data <:+: lowerChars r.message) (hoff : off < t.length) :
    (check_for_trigger t off).fired = true := by
  rw [check_fires_of t r off hlast hs (containsTrigger_of_substring r.message hsub) hoff]

theorem check_fires_case_insensitive_witness :
    (check_for_trigger [⟨"Simon", "Hey @AId!"⟩] 0).fired = true :=
  check_fires_case_insensitive [⟨"Simon", "Hey @AId!"⟩] ⟨"Simon", "Hey @AId!"⟩ 0
    (by decide) (by decide) (by decide) (by decide)

/-- C8: dispatching a tool name outside the registered set returns the
explicit sentinel `Unknown tool: <name>` as the result, for every handler
family and every argument dictionary; `execute_tool` is total, so no
exception reaches the caller. -/
theorem unknown_tool_returns_sentinel
    (handlers : String → ToolInput → Except PyError String)
    (tool_name : String) (tool_input : ToolInput)
    (h : tool_name ∉ REGISTERED_TOOLS) :
    execute_tool handlers tool_name tool_input = "Unknown tool: " ++ tool_name := by
  simp [execute_tool, h]

theorem unknown_tool_returns_sentinel_witness :
    execute_tool wHandlersOk "frobnicate" ⟨[]⟩ = "Unknown tool: " ++ "frobnicate" :=
  unknown_tool_returns_sentinel wHandlersOk "frobnicate" ⟨[]⟩ (by decide)

/-- C9: when the handler of one requested call of a turn raises, that
call's entry in the result list is the descriptive error string naming the
failed tool, and every sibling call of the same turn is still executed and
receives its own result under its own id. -/
theorem failing_tool_isolated
    (handlers : String → ToolInput → Except PyError String)
    (tus : List ToolUse) (i : Nat) (tu : ToolUse) (e : PyError)
    (hi : tus[i]? = some tu) (hreg : tu.name ∈ REGISTERED_TOOLS)
    (herr : handlers tu.name tu.input = Except.error e) :
    (run_tool_uses handlers tus)[i]? =
      some ⟨tu.id, "Error executing " ++ tu.name ++ ": " ++ e.msg⟩ ∧
    ∀ (j : Nat) (tu' : ToolUse), tus[j]? = some tu' →
      (run_tool_uses handlers tus)[j]? =
        some ⟨tu'.id, execute_tool handlers tu'.name tu'.input⟩ := by
  constructor
  · rw [run_tool_uses, List.getElem?_map, hi]
    simp [execute_tool, hreg, herr]
  · intro j tu' hj
    rw [run_tool_uses, List.getElem?_map, hj]
    rfl

theorem failing_tool_isolated_witness :
    (run_tool_uses wHandlersBoom wToolUses)[0]? =
      some ⟨"id0", "Error executing " ++ "check_availability" ++ ": " ++ "boom"⟩ ∧
    (run_tool_uses wHandlersBoom wToolUses)[1]? = some ⟨"id1", "ok"⟩ := by
  have h := failing_tool_isolated wHandlersBoom wToolUses 0
    ⟨"id0", "check_availability", ⟨[]⟩⟩ ⟨"boom"⟩ (by decide) (by decide) rfl
  refine ⟨h.1, ?_⟩
  rw [h.2 1 ⟨"id1", "list_group_members", ⟨[]⟩⟩ (by decide)]
  decide

/-- Executing the tool-use blocks of a turn yields results whose ids are,
in order and with multiplicity, exactly the ids of the turn's tool-use
blocks. -/
theorem tool_results_ids (handlers : String → ToolInput → Except PyError String)
    (bs : List ContentBlock) :
    (tool_results_for handlers bs).map ToolResult.tool_use_id
      = bs.filterMap toolUseId? := by
  induction bs with
  | nil => rfl
  | cons b bs ih =>
    cases b with
    | text s =>
      simpa [tool_results_for, toolUseId?, List.filterMap_cons] using ih
    | tool_use id name input =>
      simpa [tool_results_for, toolUseId?, List.filterMap_cons] using ih

/-- C7: in a tool-use turn, every tool-use block is paired with exactly one
tool result carrying its id (the result ids are exactly the tool-use block
ids, in order), the conversation the loop hands to the next model call ends
with the user turn carrying all those results, and the (fuel+1)-step loop
proceeds by exactly that next call on exactly that conversation. -/
theorem tool_results_paired_before_next_call
    (model : List Message → Except PyError ModelResponse)
    (handlers : String → ToolInput → Except PyError String)
    (fuel : Nat) (conv : List Message) (resp : ModelResponse)
    (hstop : resp.stop_reason = "tool_use") :
    ((tool_results_for handlers resp.content).map ToolResult.tool_use_id
      = resp.content.filterMap toolUseId?) ∧
    (nextConversation handlers conv resp).getLast? =
      some ⟨Role.user, MsgContent.results (tool_results_for handlers resp.content)⟩ ∧
    agentLoop model handlers (fuel + 1) conv resp =
      (match model (nextConversation handlers conv resp) with
       | Except.ok resp' =>
           agentLoop model handlers fuel (nextConversation handlers conv resp) resp'
       | Except.error _ => GenOutcome.failed) := by
  refine ⟨tool_results_ids handlers resp.content, ?_, ?_⟩
  · simp [nextConversation]
  · simp [agentLoop, hstop]

theorem tool_results_paired_before_next_call_witness :
    ((tool_results_for wHandlersOk wRespTU.content).map ToolResult.tool_use_id
      = wRespTU.content.filterMap toolUseId?) ∧
    (nextConversation wHandlersOk [] wRespTU).getLast? =
      some ⟨Role.user, MsgContent.results (tool_results_for wHandlersOk wRespTU.content)⟩ ∧
    agentLoop wModelEnd wHandlersOk 1 [] wRespTU =
      (match wModelEnd (nextConversation wHandlersOk [] wRespTU) with
       | Except.ok resp' =>
           agentLoop wModelEnd wHandlersOk 0 (nextConversation wHandlersOk [] wRespTU) resp'
       | Except.error _ => GenOutcome.failed) :=
  tool_results_paired_before_next_call wModelEnd wHandlersOk 0 [] wRespTU rfl

/-- Against a model that answers every request with a tool-use turn, the
tool-use loop is still running after any number of round-trips. -/
theorem agentLoop_always_tool_running
    (model : List Message → Except PyError ModelResponse)
    (handlers : String → ToolInput → Except PyError String)
    (hm : ∀ ms, ∃ r, model ms = Except.ok r ∧ r.stop_reason = "tool_use") :
    ∀ (fuel : Nat) (conv : List Message) (resp : ModelResponse),
      resp.stop_reason = "tool_use" →
      agentLoop model handlers fuel conv resp = GenOutcome.running := by
  intro fuel
  induction fuel with
  | zero => intro conv resp _; rfl
  | succ n ih =>
    intro conv resp h
    obtain ⟨r, hr, hstop⟩ := hm (nextConversation handlers conv resp)
    simp only [agentLoop, h, if_true, hr]
    exact ih (nextConversation handlers conv resp) r hstop

/-- C1 (the code lacks the capped behavior the claim states): for every
model that responds to each request with a tool-use turn, and for EVERY
number of allowed tool-use round-trips, `generate_response` is still
looping — the while-loop has no iteration cap, so it never terminates on
its own and never produces a degraded answer; only the external wall-clock
timeout of `monitor_loop` ends it. -/
theorem generate_response_no_iteration_cap
    (model : List Message → Except PyError ModelResponse)
    (handlers : String → ToolInput → Except PyError String)
    (hm : ∀ ms, ∃ r, model ms = Except.ok r ∧ r.stop_reason = "tool_use")
    (fuel : Nat) (prompt : String) :
    generate_response model handlers fuel prompt = GenOutcome.running := by
  obtain ⟨r, hr, hstop⟩ := hm [⟨Role.user, MsgContent.prompt prompt⟩]
  simp only [generate_response, hr]
  exact agentLoop_always_tool_running model handlers hm fuel _ r hstop

theorem generate_response_no_iteration_cap_witness :
    generate_response wModelTU wHandlersOk 10 "hi" = GenOutcome.running :=
  generate_response_no_iteration_cap wModelTU wHandlersOk
    (fun _ => ⟨⟨[ContentBlock.tool_use "t1" "geocode_address" ⟨[]⟩], "tool_use"⟩,
      rfl, rfl⟩) 10 "hi"

/-- C5 counterexample: when the model call raises (a non-timeout failure),
`generate_response` returns Python `None` and `monitor_loop` delivers
nothing to the chat — no generic apology string is produced as a visible
result. -/
theorem no_apology_on_failure :
    monitor_deliver (generate_response wModelErr wHandlersOk 1 "hi") = none := rfl

/-- C5 (amended): every exception raised by a model call — on the initial
request or on any later round-trip — is caught: `generate_response`
evaluates to `failed` (Python `return None`) instead of propagating, so the
monitoring process does not crash, but the monitor then delivers NOTHING to
the chat (it only logs the failure); no apology string is sent. -/
theorem exception_caught_nothing_delivered
    (model : List Message → Except PyError ModelResponse)
    (handlers : String → ToolInput → Except PyError String)
    (fuel : Nat) (prompt : String) (conv : List Message)
    (resp : ModelResponse) (e : PyError) :
    (model [⟨Role.user, MsgContent.prompt prompt⟩] = Except.error e →
      generate_response model handlers fuel prompt = GenOutcome.failed ∧
      monitor_deliver (generate_response model handlers fuel prompt) = none) ∧
    (resp.stop_reason = "tool_use" →
      model (nextConversation handlers conv resp) = Except.error e →
      agentLoop model handlers (fuel + 1) conv resp = GenOutcome.failed ∧
      monitor_deliver (agentLoop model handlers (fuel + 1) conv resp) = none) := by
  constructor
  · intro hthrow
    have h1 : generate_response model handlers fuel prompt = GenOutcome.failed := by
      simp only [generate_response, hthrow]
    exact ⟨h1, by rw [h1]; rfl⟩
  · intro hstop hthrow
    have h1 : agentLoop model handlers (fuel + 1) conv resp = GenOutcome.failed := by
      simp only [agentLoop, hstop, if_true, hthrow]
    exact ⟨h1, by rw [h1]; rfl⟩

theorem exception_caught_nothing_delivered_witness :
    generate_response wModelErr wHandlersOk 3 "hi" = GenOutcome.failed ∧
    monitor_deliver (generate_response wModelErr wHandlersOk 3 "hi") = none ∧
    agentLoop wModelErr wHandlersOk 1 [] wRespTU = GenOutcome.failed := by
  have h := exception_caught_nothing_delivered wModelErr wHandlersOk 3 "hi" [] wRespTU
    ⟨"boom"⟩
  have h1 := h.1 rfl
  have h2 := h.2 rfl rfl
  exact ⟨h1.1, h1.2, h2.1⟩

/-- C6 (weight formula modelled from the spec): for a window of at least
two messages and a fixed nonzero spread, the recency weight is
non-decreasing in the position index over the window — a newer message
never has lower weight than an older one. -/
theorem contextWeight_monotone (sigma : ℝ) (total i j : Nat)
    (hσ : sigma ≠ 0) (htot : 2 ≤ total) (hij : i ≤ j) (hj : j < total) :
    contextWeight sigma total i ≤ contextWeight sigma total j := by
  have h1 : total ≠ 1 := by omega
  rw [contextWeight, contextWeight, if_neg h1, if_neg h1]
  apply Real.exp_le_exp.mpr
  have hT : (0 : ℝ) < (total : ℝ) - 1 := by
    have h2 : (2 : ℝ) ≤ (total : ℝ) := by exact_mod_cast htot
    linarith
  set pi := 2 * (i : ℝ) / ((total : ℝ) - 1) - 1 with hpi
  set pj := 2 * (j : ℝ) / ((total : ℝ) - 1) - 1 with hpj
  have hijR : (i : ℝ) ≤ (j : ℝ) := by exact_mod_cast hij
  have hij' : pi ≤ pj := by
    rw [hpi, hpj]
    have := div_le_div_of_nonneg_right (c := (total : ℝ) - 1)
      (show 2 * (i : ℝ) ≤ 2 * (j : ℝ) by linarith) hT.le
    linarith [this]
  have hjT : (j : ℝ) ≤ (total : ℝ) - 1 := by
    have : (j : ℝ) + 1 ≤ (total : ℝ) := by exact_mod_cast hj
    linarith
  have hpj1 : pj ≤ 1 := by
    rw [hpj]
    have : 2 * (j : ℝ) / ((total : ℝ) - 1) ≤ 2 := by
      rw [div_le_iff₀ hT]
      linarith
    linarith
  have hs2 : (0 : ℝ) < 2 * sigma ^ 2 := by
    have : sigma ^ 2 ≠ 0 := pow_ne_zero 2 hσ
    have h0 : 0 ≤ sigma ^ 2 := sq_nonneg sigma
    have : 0 < sigma ^ 2 := lt_of_le_of_ne h0 (Ne.symm this)
    linarith
  have hsq : (pj - 1) ^ 2 ≤ (pi - 1) ^ 2 := by
    have hfac : 0 ≤ (pj - pi) * ((1 - pi) + (1 - pj)) :=
      mul_nonneg (by linarith) (by linarith)
    nlinarith [hfac]
  rw [div_le_div_iff₀ hs2 hs2]
  have hneg : -(pi - 1) ^ 2 ≤ -(pj - 1) ^ 2 := neg_le_neg hsq
  exact mul_le_mul_of_nonneg_right hneg (le_of_lt hs2)

theorem contextWeight_monotone_witness :
    contextWeight 1 5 2 ≤ contextWeight 1 5 4 :=
  contextWeight_monotone 1 5 2 4 one_ne_zero (by decide) (by decide) (by decide)
